import Mathlib

/-!
# Odometer Tracker — verification of the ingestion-and-normalization core

Shallow embedding of `src/index.tsx` (the single-page odometer tracker).
The React component's state hooks become fields of an explicit `AppState`;
its handlers become state-transition functions; the JavaScript standard
library behaviour the handlers rely on (`parseInt`, `Array.prototype.sort`,
`localStorage`) is modelled faithfully below.  Host builtins that are pure
black boxes for this program (`new Date(s).getTime()` parsing, `JSON.parse`)
are taken as parameters of the definitions that use them.
-/

namespace Odometer

/-- `interface Reading` (src/index.tsx lines 6-10).  `value : number` is an
integer here because it is only ever produced by `parseInt`. -/
structure Reading where
  id : String
  value : Int
  date : String
deriving Repr, DecidableEq

/-- The derived row produced by `displayReadings` (src lines 63-66):
a reading spread together with its `displayValue`. -/
structure DisplayReading where
  id : String
  value : Int
  date : String
  displayValue : Int
deriving Repr, DecidableEq

/-! ## JavaScript `parseInt(s, 10)`

`parseInt` skips leading whitespace, accepts one optional sign, then reads
the longest prefix of base-10 digits; it returns `NaN` (here `none`) only
when that prefix is empty, and otherwise the integer denoted by the prefix,
ignoring any trailing garbage. -/

/-- Longest leading run of decimal digits, as digit values. -/
def leadingDigits : List Char → List Nat
  | [] => []
  | c :: cs => if c.isDigit then (c.toNat - 48) :: leadingDigits cs else []

/-- Fold a digit list into the natural number it denotes. -/
def natOfDigits (ds : List Nat) : Nat :=
  ds.foldl (fun a d => 10 * a + d) 0

/-- JavaScript `parseInt(s, 10)`; `none` models `NaN`. -/
def jsParseInt (s : String) : Option Int :=
  let cs := s.data.dropWhile Char.isWhitespace
  match cs with
  | '-' :: rest =>
    match leadingDigits rest with
    | [] => none
    | ds => some (-(natOfDigits ds : Int))
  | '+' :: rest =>
    match leadingDigits rest with
    | [] => none
    | ds => some (natOfDigits ds : Int)
  | _ =>
    match leadingDigits cs with
    | [] => none
    | ds => some (natOfDigits ds : Int)

/-- JavaScript `String.prototype.trim()`: strip whitespace from both ends. -/
def jsTrim (s : String) : String :=
  ⟨((s.data.dropWhile Char.isWhitespace).reverse.dropWhile Char.isWhitespace).reverse⟩

/-! ## Recognition Adapter — response validation (src lines 113-125) -/

/-- Outcome of validating one recognition response. -/
inductive RecognitionOutcome where
  | success (value : Int)
  | failure
deriving Repr, DecidableEq

/-- `text || "-1"` from src line 114: the string actually handed to
`parseInt` (`text` is falsy when `response.text` was `undefined` or the
trimmed text is empty). -/
def effectiveText (text : Option String) : String :=
  match text with
  | none => "-1"
  | some t => if t = "" then "-1" else t

/-- Validation of the recognition response (src lines 113-125):
`const text = response.text?.trim(); const numberValue = parseInt(text || "-1", 10);
if (!text || numberValue === -1 || isNaN(numberValue)) { failure } else { success }`. -/
def classifyResponse (respText : Option String) : RecognitionOutcome :=
  let text := respText.map jsTrim
  let numberValue := jsParseInt (effectiveText text)
  let textFalsy : Bool :=
    match text with
    | none => true
    | some t => t = ""
  if textFalsy then .failure
  else
    match numberValue with
    | none => .failure
    | some n => if n = -1 then .failure else .success n

/-! ## View Projector (src lines 57-66)

`[...readings].sort((a, b) => new Date(a.date).getTime() - new Date(b.date).getTime())`
is a stable ascending sort on the parsed timestamp; `Array.prototype.sort`
is required to be stable, so it is `List.mergeSort` on the `≤` ordering of
timestamps.  Timestamp parsing (`new Date(s).getTime()`) is a host builtin,
passed in as `parseDate`. -/

/-- `sortedReadings` (src lines 57-59). -/
def sortedReadings (parseDate : String → Int) (readings : List Reading) : List Reading :=
  readings.mergeSort (fun a b => parseDate a.date ≤ parseDate b.date)

/-- `initialReading` (src line 61): value of the first sorted reading, 0 if none. -/
def initialReading (parseDate : String → Int) (readings : List Reading) : Int :=
  match sortedReadings parseDate readings with
  | [] => 0
  | r :: _ => r.value

/-- `displayReadings` (src lines 63-66), parametrised additionally by the
`zeroReadings` mode flag. -/
def displayReadings (parseDate : String → Int) (readings : List Reading)
    (zeroReadings : Bool) : List DisplayReading :=
  (sortedReadings parseDate readings).map fun r =>
    { id := r.id, value := r.value, date := r.date,
      displayValue := if zeroReadings then r.value - initialReading parseDate readings else r.value }

/-- Forget the derived column of a display row. -/
def forgetDisplay (d : DisplayReading) : Reading :=
  { id := d.id, value := d.value, date := d.date }

/-! ## Application state and handlers

The component's `useState` hooks become fields of one record.  `localStorage`
is modelled as the content of the single slot `"odometer_readings"` the
program uses (`none` = key absent).  The file input element's `value`
property (which `handleFileUpload` resets to `""` so that re-selecting the
same file refires the change event) is the `fileInputValue` field. -/

/-- The component state (src lines 27-38) plus the persistence slot. -/
structure AppState where
  readings : List Reading
  loading : Bool
  errorMsg : Option String
  showClearConfirm : Bool
  fileInputValue : String
  storage : Option String
deriving Repr, DecidableEq

/-- Error message of src line 79. -/
def configErrorMsg : String :=
  "Configuration Error: API_KEY is missing. Please check your environment variables."

/-- Error message of src line 117. -/
def recogFailureMsg : String := "Could not read odometer. Please try a clearer photo."

/-- Error message of src line 128. -/
def aiErrorMsg : String := "Error processing image with AI."

/-- Error message of src line 136. -/
def fileReadErrorMsg : String := "Error reading file."

/-- The save effect (src lines 53-55): on every change of `readings` the
whole collection is re-serialized into the slot, overwriting it.
`JSON.stringify` is the `serialize` parameter. -/
def saveEffect (serialize : List Reading → String) (s : AppState) : AppState :=
  { s with storage := some (serialize s.readings) }

/-- `clearAllReadings` (src lines 141-145): empty the collection, close the
confirmation dialog, remove the persisted key. -/
def clearAllReadings (s : AppState) : AppState :=
  { s with readings := [], showClearConfirm := false, storage := none }

/-- The Clear-All command as it completes: the handler runs, React re-renders
(`readings` changed to a fresh array), and the save effect of src lines 53-55
fires again, rewriting the slot with the serialization of the now-empty
collection. -/
def clearAllComplete (serialize : List Reading → String) (s : AppState) : AppState :=
  saveEffect serialize (clearAllReadings s)

/-- `JSON.stringify` for an array of `Reading` records (ids and ISO dates
contain no characters that JSON escapes). -/
def readingJson (r : Reading) : String :=
  "\x7b\"id\":\"" ++ r.id ++ "\",\"value\":" ++ toString r.value ++
    ",\"date\":\"" ++ r.date ++ "\"\x7d"

/-- `JSON.stringify` applied to the whole collection. -/
def jsonStringify (rs : List Reading) : String :=
  "[" ++ String.intercalate "," (rs.map readingJson) ++ "]"

/-- The load effect (src lines 41-50): read the slot; if present, try to
parse it and replace the (initially empty) collection; on a parse error keep
the initial empty collection.  `JSON.parse` is the `decode` parameter
(`none` = the parse threw). -/
def load (decode : String → Option (List Reading)) (stored : Option String) : List Reading :=
  match stored with
  | none => []
  | some s =>
    match decode s with
    | some c => c
    | none => []

/-! ## The ingestion pipeline (`handleFileUpload`, src lines 69-139)

One ingestion attempt, modelled as the state transformation that has taken
place once all callbacks of the attempt have settled.  The attempt's
environment captures every external input the handler consults. -/

/-- What the `FileReader` does with the selected file. -/
inductive FileReadResult where
  /-- `onload` fires with the data URL (src line 88). -/
  | ok
  /-- `readAsDataURL` throws synchronously, landing in the outer `catch`
  (src lines 134-138). -/
  | errSync
  /-- the read fails asynchronously; the code installs no `onerror` handler,
  so no callback of the attempt ever runs. -/
  | errAsync
deriving Repr, DecidableEq

/-- How the recognition call (`ai.models.generateContent`, src line 95) ends. -/
inductive RecognitionCall where
  /-- the call resolves; `text` is `response.text` (`none` = `undefined`). -/
  | response (text : Option String)
  /-- the call rejects, landing in the inner `catch` (src lines 126-128). -/
  | thrown
deriving Repr, DecidableEq

/-- External inputs consumed by one ingestion attempt. -/
structure UploadEnv where
  /-- whether `e.target.files?.[0]` exists (src line 70). -/
  file : Bool
  /-- `process.env.API_KEY` (src line 77); `none` = unset. -/
  apiKey : Option String
  fileRead : FileReadResult
  recog : RecognitionCall
  /-- `generateId()` result (src line 120). -/
  newId : String
  /-- `new Date().toISOString()` (src line 122). -/
  now : String
deriving Repr, DecidableEq

/-- JavaScript truthiness test `!apiKey`: true when the variable is unset or
the empty string. -/
def keyMissing (apiKey : Option String) : Bool :=
  match apiKey with
  | none => true
  | some s => s = ""

/-- Final state of one attempt, plus whether the external recognition call
was issued. -/
structure UploadResult where
  state : AppState
  networkCalled : Bool
deriving Repr, DecidableEq

/-- `handleFileUpload` (src lines 69-139), including its callbacks, as one
attempt-level transition.  Mirrors the handler's control flow:
no file → return; `setLoading(true)`/`setErrorMsg(null)`; missing key →
config error, loading off, input cleared, no call; then the `FileReader`
paths; on `onload`, the recognition call with its inner
`try`/`catch`/`finally`. -/
def handleFileUpload (env : UploadEnv) (s : AppState) : UploadResult :=
  if !env.file then ⟨s, false⟩
  else
    let s := { s with loading := true, errorMsg := none }
    if keyMissing env.apiKey then
      ⟨{ s with errorMsg := some configErrorMsg, loading := false, fileInputValue := "" }, false⟩
    else
      match env.fileRead with
      | .errSync =>
        ⟨{ s with errorMsg := some fileReadErrorMsg, loading := false }, false⟩
      | .errAsync => ⟨s, false⟩
      | .ok =>
        let afterRecog : AppState :=
          match env.recog with
          | .thrown => { s with errorMsg := some aiErrorMsg }
          | .response t =>
            match classifyResponse t with
            | .failure => { s with errorMsg := some recogFailureMsg }
            | .success v =>
              { s with readings := s.readings ++ [{ id := env.newId, value := v, date := env.now }] }
        ⟨{ afterRecog with loading := false, fileInputValue := "" }, true⟩

/-! ## Single-flight guard (src lines 227-237)

The trigger button carries `disabled={loading}`; `handleFileUpload` raises
`loading` before issuing the recognition call and the `finally` of the
response callback lowers it.  The event-level behaviour is the transition
system below: `start` is a click-and-select that reaches the recognition
call, `abort` one that returns synchronously (no file / missing key /
synchronous read failure), `finish` the arrival of one external response,
which mutates the store at most once (src lines 113-132). -/

/-- Abstraction of the states the guard ranges over. -/
structure FlightState where
  loading : Bool
  inFlight : Nat
  appendCount : Nat
deriving Repr, DecidableEq

/-- One event-loop step of the ingestion machinery. -/
inductive FlightStep : FlightState → FlightState → Prop where
  /-- trigger accepted (button enabled only when `loading = false`) and the
  recognition call issued (src lines 73, 95). -/
  | start (s : FlightState) (h : s.loading = false) :
      FlightStep s ⟨true, s.inFlight + 1, s.appendCount⟩
  /-- trigger accepted but the attempt returns without a recognition call
  (src lines 71, 78-83, 134-138). -/
  | abort (s : FlightState) (h : s.loading = false) :
      FlightStep s ⟨false, s.inFlight, s.appendCount⟩
  /-- a pending recognition resolves; its callback appends at most one
  reading and lowers `loading` (src lines 113-132). -/
  | finish (s : FlightState) (success : Bool) (h : 0 < s.inFlight) :
      FlightStep s
        ⟨false, s.inFlight - 1, if success then s.appendCount + 1 else s.appendCount⟩

/-- States reachable from the initial render (src lines 27-28:
`readings = []`, `loading = false`, nothing in flight). -/
inductive FlightReachable : FlightState → Prop where
  | init : FlightReachable ⟨false, 0, 0⟩
  | step {s t : FlightState} : FlightReachable s → FlightStep s t → FlightReachable t

/-- Inductive invariant of the guard: `loading` is an upper bound on the
number of recognitions in flight. -/
def FlightInv (s : FlightState) : Prop :=
  s.inFlight ≤ 1 ∧ (s.loading = false → s.inFlight = 0)

theorem flightInv_of_reachable {s : FlightState} (hs : FlightReachable s) : FlightInv s := by
  induction hs with
  | init => exact ⟨Nat.zero_le 1, fun _ => rfl⟩
  | step _ hstep ih =>
    obtain ⟨ih1, ih2⟩ := ih
    cases hstep with
    | start h =>
      have h0 := ih2 h
      exact ⟨Nat.succ_le_succ (Nat.le_of_eq h0), fun hc => by cases hc⟩
    | abort h => exact ⟨ih1, fun _ => ih2 h⟩
    | finish success h =>
      exact ⟨Nat.le_trans (Nat.sub_le _ 1) ih1, fun _ => Nat.sub_eq_zero_of_le ih1⟩

/-! ## Concrete inputs used to instantiate the theorems below -/

/-- The component's initial state (src lines 27-32), with an empty slot. -/
def initialAppState : AppState :=
  { readings := [], loading := false, errorMsg := none,
    showClearConfirm := false, fileInputValue := "", storage := none }

/-- A sample stored reading. -/
def sampleReading : Reading :=
  { id := "abc123def", value := 123456, date := "2026-01-01T00:00:00.000Z" }

/-- A state holding one reading, about to confirm Clear-All. -/
def c2Start : AppState :=
  { readings := [sampleReading], loading := false, errorMsg := none,
    showClearConfirm := true, fileInputValue := "",
    storage := some (jsonStringify [sampleReading]) }

/-- An attempt whose recognition response is the text `"-5"`. -/
def c3Env : UploadEnv :=
  { file := true, apiKey := some "test-key", fileRead := .ok,
    recog := .response (some "-5"), newId := "id1",
    now := "2026-01-02T03:04:05.000Z" }

/-- An attempt whose file read throws synchronously. -/
def c4Env : UploadEnv :=
  { file := true, apiKey := some "test-key", fileRead := .errSync,
    recog := .response none, newId := "id2",
    now := "2026-01-02T03:04:05.000Z" }

/-- A state in which a file has just been selected. -/
def c4State : AppState :=
  { initialAppState with fileInputValue := "C:\\fakepath\\odometer.jpg" }

/-- An attempt with the credential set to the empty string. -/
def c8Env : UploadEnv :=
  { file := true, apiKey := some "", fileRead := .ok, recog := .thrown,
    newId := "id3", now := "2026-01-02T03:04:05.000Z" }

/-- An attempt whose recognition response is the sentinel `"-1"`. -/
def c10Env : UploadEnv :=
  { file := true, apiKey := some "test-key", fileRead := .ok,
    recog := .response (some "-1"), newId := "id4",
    now := "2026-01-02T03:04:05.000Z" }

/-- A one-element collection. -/
def c6Readings : List Reading := [{ id := "a", value := 5, date := "d1" }]

/-! ## Helper lemmas -/

/-- Closed form of the classifier on a present response text. -/
theorem classifyResponse_some (t : String) :
    classifyResponse (some t) =
      if jsTrim t = "" then .failure
      else
        match jsParseInt (jsTrim t) with
        | none => .failure
        | some n => if n = -1 then .failure else .success n := by
  by_cases h : jsTrim t = "" <;>
    simp [classifyResponse, effectiveText, h]

/-- Success cases of the classifier, characterised. -/
theorem classify_success_iff (t : String) (n : Int) :
    classifyResponse (some t) = .success n ↔
      jsTrim t ≠ "" ∧ jsParseInt (jsTrim t) = some n ∧ n ≠ -1 := by
  rw [classifyResponse_some]
  by_cases h : jsTrim t = ""
  · simp [h]
  · cases hp : jsParseInt (jsTrim t) with
    | none => simp [h, hp]
    | some m =>
      by_cases hm : m = -1
      · simp [h, hp, hm]
        exact fun he => he.symm
      · simp only [h, hp, if_neg, hm, ite_false]
        constructor
        · intro he
          cases he
          exact ⟨h, rfl, hm⟩
        · rintro ⟨-, hmn, -⟩
          cases hmn
          rfl

/-- Failure cases of the classifier, characterised. -/
theorem classify_failure_iff (t : String) :
    classifyResponse (some t) = .failure ↔
      jsTrim t = "" ∨ jsParseInt (jsTrim t) = none ∨ jsParseInt (jsTrim t) = some (-1) := by
  rw [classifyResponse_some]
  by_cases h : jsTrim t = ""
  · simp [h]
  · cases hp : jsParseInt (jsTrim t) with
    | none => simp [h, hp]
    | some m =>
      by_cases hm : m = -1
      · simp [h, hp, hm]
      · simp [h, hp, hm]

/-- A value accepted by the classifier is never the sentinel. -/
theorem classify_success_ne_neg_one {t : Option String} {n : Int}
    (h : classifyResponse t = .success n) : n ≠ -1 := by
  cases t with
  | none => simp [classifyResponse] at h
  | some s => exact ((classify_success_iff s n).1 h).2.2

/-- An ingestion attempt either leaves the store untouched or, when the key
was present, the read succeeded and the classifier accepted, appends exactly
the one reading built from the accepted value. -/
theorem upload_readings_cases (env : UploadEnv) (s : AppState) :
    (handleFileUpload env s).state.readings = s.readings
    ∨ (env.file = true ∧ keyMissing env.apiKey = false ∧ env.fileRead = .ok
        ∧ ∃ t n, env.recog = .response t ∧ classifyResponse t = .success n
        ∧ (handleFileUpload env s).state.readings
            = s.readings ++ [{ id := env.newId, value := n, date := env.now }]) := by
  unfold handleFileUpload
  by_cases hf : env.file = true
  · by_cases hk : keyMissing env.apiKey = true
    · simp [hf, hk]
    · cases hr : env.fileRead with
      | errSync => simp [hf, hk, hr]
      | errAsync => simp [hf, hk, hr]
      | ok =>
        cases hg : env.recog with
        | thrown => simp [hf, hk, hr, hg]
        | response t =>
          cases hc : classifyResponse t with
          | failure => simp [hf, hk, hr, hg, hc]
          | success n =>
            right
            refine ⟨hf, by simpa using hk, rfl, t, n, rfl, hc, ?_⟩
            simp [hf, hk, hc]
  · simp [hf]

/-- A collection that is nonempty stays nonempty under the view sort. -/
theorem sortedReadings_ne_nil {parseDate : String → Int} {readings : List Reading}
    (h : readings ≠ []) : sortedReadings parseDate readings ≠ [] := by
  intro hc
  apply h
  have hlen : readings.length = 0 := by
    simpa [sortedReadings] using congrArg List.length hc
  exact List.eq_nil_of_length_eq_zero hlen

/-! ## Claim theorems -/

/-- C1, counterexample: the response `"12a456"` is not classified as a
failure — JavaScript `parseInt` reads the longest leading digit prefix, so
the adapter accepts it as `success 12`. -/
theorem c1_counterexample :
    classifyResponse (some "12a456") = .success 12
    ∧ classifyResponse (some "12a456") ≠ .failure := by decide

/-- C1 (amended): the adapter trims the response and hands it to base-10
`parseInt`, which parses the longest leading integer prefix; it classifies
as failure exactly when the trimmed response is absent or empty, parses to
the sentinel `-1`, or has no parsable leading integer (`NaN`); otherwise it
returns the parsed integer as success.  `"123456"` yields `success 123456`,
`"-1"` and `""` yield failure, and `"12a456"` yields `success 12` (not, as
the claim states, failure). -/
theorem c1_response_validation :
    (∀ t : String, ∀ n : Int,
        classifyResponse (some t) = .success n ↔
          jsTrim t ≠ "" ∧ jsParseInt (jsTrim t) = some n ∧ n ≠ -1)
    ∧ (∀ t : String,
        classifyResponse (some t) = .failure ↔
          jsTrim t = "" ∨ jsParseInt (jsTrim t) = none ∨ jsParseInt (jsTrim t) = some (-1))
    ∧ classifyResponse none = .failure
    ∧ classifyResponse (some "123456") = .success 123456
    ∧ classifyResponse (some "-1") = .failure
    ∧ classifyResponse (some "") = .failure
    ∧ classifyResponse (some "12a456") = .success 12 :=
  ⟨classify_success_iff, classify_failure_iff, by decide, by decide, by decide,
    by decide, by decide⟩

/-- C2, counterexample: Clear-All on a state holding one reading leaves the
collection empty, but once the save effect (which fires because `readings`
changed) has run, the persistence key exists again and holds `"[]"` — it is
not the case that the key no longer exists after the operation completes. -/
theorem c2_counterexample :
    (clearAllComplete jsonStringify c2Start).readings = []
    ∧ (clearAllComplete jsonStringify c2Start).storage = some "[]"
    ∧ ¬(clearAllComplete jsonStringify c2Start).storage = none := by decide

/-- C2 (amended): from any state, Clear-All yields an empty collection; the
handler itself removes the persisted slot, but the save effect triggered by
the mutation immediately rewrites the slot with the serialization of the
empty collection, so after the operation completes the key exists and holds
the serialized empty collection. -/
theorem c2_clear_all (serialize : List Reading → String) (s : AppState) :
    (clearAllComplete serialize s).readings = []
    ∧ (clearAllReadings s).readings = []
    ∧ (clearAllReadings s).storage = none
    ∧ (clearAllComplete serialize s).storage = some (serialize []) :=
  ⟨rfl, rfl, rfl, rfl⟩

/-- C3, counterexample: when the external service responds `"-5"`, the
pipeline appends a reading whose value is `-5`, which is negative — the
claimed invariant `0 ≤ value ≤ 999999` does not hold for every possible
response text. -/
theorem c3_counterexample :
    (handleFileUpload c3Env initialAppState).state.readings.map Reading.value = [-5]
    ∧ ¬(0 : Int) ≤ -5 := by decide

/-- C3 (amended): an ingestion attempt either leaves the store unchanged or
appends exactly one reading whose value is an integer different from the
sentinel `-1`; the code enforces no range check, so the bounds
`0 ≤ value ≤ 999999` hold only if the external service returns at most six
digits as instructed. -/
theorem c3_appended_values (env : UploadEnv) (s : AppState) :
    (handleFileUpload env s).state.readings = s.readings
    ∨ ∃ n : Int, n ≠ -1
        ∧ (handleFileUpload env s).state.readings
            = s.readings ++ [{ id := env.newId, value := n, date := env.now }] := by
  rcases upload_readings_cases env s with h | ⟨-, -, -, t, n, -, hc, happ⟩
  · exact Or.inl h
  · exact Or.inr ⟨n, classify_success_ne_neg_one hc, happ⟩

/-- C4: on a synchronous file-read failure the handler's outer catch resets
the loading flag but does not clear the pending file-input value, and on an
asynchronous read failure no handler runs at all (no `onerror` is
installed), leaving the pipeline stuck with the loading flag raised — the
claimed terminal behaviour fails on the file-read-failure outcome. -/
theorem c4_file_read_failure_not_cleaned :
    ((handleFileUpload c4Env c4State).state.loading = false
      ∧ (handleFileUpload c4Env c4State).state.fileInputValue = "C:\\fakepath\\odometer.jpg"
      ∧ "C:\\fakepath\\odometer.jpg" ≠ "")
    ∧ (handleFileUpload { c4Env with fileRead := .errAsync } c4State).state.loading = true := by
  decide

/-- C5: in every execution reachable from the initial render, at most one
recognition is in flight (the trigger is disabled while `loading` is set),
and every event-loop step — in particular the arrival of one external
response — appends at most one reading to the store. -/
theorem c5_single_flight :
    (∀ s : FlightState, FlightReachable s → s.inFlight ≤ 1)
    ∧ ∀ s t : FlightState, FlightStep s t → t.appendCount ≤ s.appendCount + 1 := by
  constructor
  · exact fun s hs => (flightInv_of_reachable hs).1
  · intro s t hstep
    cases hstep with
    | start h => exact Nat.le_succ _
    | abort h => exact Nat.le_succ _
    | finish success h =>
      cases success
      · exact Nat.le_succ _
      · exact Nat.le_refl _

/-- C5, witness: the state with one recognition in flight is reachable and
satisfies the bound, and the arrival of its response appends one reading. -/
theorem c5_single_flight_witness :
    (⟨true, 1, 0⟩ : FlightState).inFlight ≤ 1
    ∧ (⟨false, 0, 1⟩ : FlightState).appendCount ≤ (⟨true, 1, 0⟩ : FlightState).appendCount + 1 :=
  ⟨c5_single_flight.1 ⟨true, 1, 0⟩
      (FlightReachable.step FlightReachable.init (FlightStep.start ⟨false, 0, 0⟩ rfl)),
    c5_single_flight.2 ⟨true, 1, 0⟩ ⟨false, 0, 1⟩ (FlightStep.finish ⟨true, 1, 0⟩ true (by decide))⟩

/-- C6: on a nonempty collection the zero-based projection starts at
`displayValue = 0`; in zero-based mode every row shows its value minus the
value of the earliest reading by date, in absolute mode every row shows its
value unchanged, and the subtracted base is `0` on the empty collection. -/
theorem c6_zero_based_projection (parseDate : String → Int) (readings : List Reading)
    (h : readings ≠ []) :
    (displayReadings parseDate readings true).head?.map DisplayReading.displayValue = some 0
    ∧ (∀ d ∈ displayReadings parseDate readings true,
        d.displayValue = d.value - initialReading parseDate readings)
    ∧ (∀ d ∈ displayReadings parseDate readings false, d.displayValue = d.value)
    ∧ initialReading parseDate [] = 0 := by
  refine ⟨?_, ?_, ?_, ?_⟩
  · cases hs : sortedReadings parseDate readings with
    | nil => exact absurd hs (sortedReadings_ne_nil h)
    | cons r rest =>
      have hinit : initialReading parseDate readings = r.value := by
        unfold initialReading
        rw [hs]
      unfold displayReadings
      rw [hs]
      simp [hinit]
  · intro d hd
    unfold displayReadings at hd
    rw [List.mem_map] at hd
    obtain ⟨r, -, rfl⟩ := hd
    simp
  · intro d hd
    unfold displayReadings at hd
    rw [List.mem_map] at hd
    obtain ⟨r, -, rfl⟩ := hd
    simp
  · unfold initialReading sortedReadings
    rw [List.mergeSort_nil]

/-- C6, witness: the projection of a concrete one-element collection. -/
theorem c6_zero_based_projection_witness :
    (displayReadings (fun _ => 0) c6Readings true).head?.map DisplayReading.displayValue
      = some 0 :=
  (c6_zero_based_projection (fun _ => 0) c6Readings (by decide)).1

/-- C7: in absolute mode the projection is exactly the collection stably
sorted ascending by parsed date: forgetting the derived column gives the
sorted collection, the projected rows appear in ascending date order, and
they are a permutation of the collection. -/
theorem c7_absolute_projection_sorted (parseDate : String → Int) (readings : List Reading) :
    (displayReadings parseDate readings false).map forgetDisplay
        = sortedReadings parseDate readings
    ∧ List.Pairwise (fun a b : DisplayReading => parseDate a.date ≤ parseDate b.date)
        (displayReadings parseDate readings false)
    ∧ ((displayReadings parseDate readings false).map forgetDisplay).Perm readings := by
  have hmap : (displayReadings parseDate readings false).map forgetDisplay
      = sortedReadings parseDate readings := by
    unfold displayReadings
    rw [List.map_map]
    exact List.map_id _
  have hsorted : (sortedReadings parseDate readings).Pairwise
      (fun a b => parseDate a.date ≤ parseDate b.date) := by
    have hs := @List.sorted_mergeSort Reading
      (fun a b : Reading => decide (parseDate a.date ≤ parseDate b.date))
      (fun a b c hab hbc =>
        decide_eq_true (le_trans (of_decide_eq_true hab) (of_decide_eq_true hbc)))
      (fun a b => by
        rcases le_total (parseDate a.date) (parseDate b.date) with hle | hle <;> simp [hle])
      readings
    exact hs.imp fun hab => of_decide_eq_true hab
  refine ⟨hmap, ?_, ?_⟩
  · unfold displayReadings
    rw [List.pairwise_map]
    exact hsorted
  · rw [hmap]
    exact List.mergeSort_perm readings _

/-- C8: with the credential absent or empty, an attempt with a selected file
issues no recognition call, appends nothing, lowers the loading flag, clears
the input, and surfaces the configuration-error message, which differs from
the recognition-failure message. -/
theorem c8_missing_credential (env : UploadEnv) (s : AppState)
    (hfile : env.file = true) (hkey : keyMissing env.apiKey = true) :
    (handleFileUpload env s).networkCalled = false
    ∧ (handleFileUpload env s).state.readings = s.readings
    ∧ (handleFileUpload env s).state.errorMsg = some configErrorMsg
    ∧ (handleFileUpload env s).state.loading = false
    ∧ (handleFileUpload env s).state.fileInputValue = ""
    ∧ configErrorMsg ≠ recogFailureMsg := by
  refine ⟨?_, ?_, ?_, ?_, ?_, by decide⟩ <;>
    simp [handleFileUpload, hfile, hkey]

/-- C8, witness: an attempt with the credential set to the empty string. -/
theorem c8_missing_credential_witness :
    (handleFileUpload c8Env initialAppState).networkCalled = false :=
  (c8_missing_credential c8Env initialAppState rfl rfl).1

/-- C9: startup load yields the decoded collection when the slot holds a
decodable serialization, and the empty collection when the slot is absent or
its content fails to decode — the load is total, so it cannot crash, and it
never yields a partial collection. -/
theorem c9_load_fails_soft (decode : String → Option (List Reading)) (stored : Option String) :
    (stored = none → load decode stored = [])
    ∧ (∀ s, stored = some s → decode s = none → load decode stored = [])
    ∧ (∀ s c, stored = some s → decode s = some c → load decode stored = c) := by
  refine ⟨?_, ?_, ?_⟩
  · intro h
    rw [h]
    rfl
  · intro s hs hd
    rw [hs]
    simp [load, hd]
  · intro s c hs hd
    rw [hs]
    simp [load, hd]

/-- C9, witness: a slot whose content fails to decode loads as empty. -/
theorem c9_load_fails_soft_witness :
    load (fun _ => none) (some "corrupt") = [] :=
  (c9_load_fails_soft (fun _ => none) (some "corrupt")).2.1 "corrupt" rfl rfl

/-- C10: every failing ingestion attempt — missing credential, file-read
failure, a response the classifier rejects, or an exception from the
recognition call — leaves the reading collection exactly as it was. -/
theorem c10_failed_ingestion_atomic (env : UploadEnv) (s : AppState)
    (h : keyMissing env.apiKey = true
      ∨ env.fileRead = .errSync ∨ env.fileRead = .errAsync
      ∨ env.recog = .thrown
      ∨ ∃ t, env.recog = .response t ∧ classifyResponse t = .failure) :
    (handleFileUpload env s).state.readings = s.readings := by
  rcases upload_readings_cases env s with hu | ⟨-, hk, hr, t, n, hg, hc, -⟩
  · exact hu
  · exfalso
    rcases h with h' | h' | h' | h' | ⟨t2, h', hc2⟩
    · rw [hk] at h'
      cases h'
    · rw [hr] at h'
      cases h'
    · rw [hr] at h'
      cases h'
    · rw [hg] at h'
      cases h'
    · rw [hg] at h'
      cases h'
      rw [hc2] at hc
      cases hc

/-- C10, witness: the sentinel response `"-1"` leaves the store unchanged. -/
theorem c10_failed_ingestion_atomic_witness :
    (handleFileUpload c10Env initialAppState).state.readings = initialAppState.readings :=
  c10_failed_ingestion_atomic c10Env initialAppState
    (Or.inr (Or.inr (Or.inr (Or.inr ⟨some "-1", rfl, by decide⟩))))

end Odometer
